import Mathlib

/-!
# RagChatbot: the client state of `static/js/app.js`

A shallow embedding of the browser client's state and of the handlers that
change it.  The module-level variables of `app.js` (`currentDocId`,
`isProcessing`, `clientId`, `activeChat`, `chatHistories`) together with the
parts of the page the handlers read or write (the chat input, the message
list, the upload status line, `localStorage`) form one `State` record; every
handler is a function on that record.

An `async` handler is split at its `await`: the part that runs synchronously
when the handler is called is one function (`...Start`), the part that runs
when the awaited request settles is another (`...Resume`, or `...Timeout` for
the `setTimeout` callback of `processFile`), so that other handlers can run in
between, as they can in the browser.  Every call of `Date.now()` and of
`Math.random()` is an explicit argument.  The requests a handler issues are
appended to `State.requests`.

Purely visual updates (CSS classes, header and placeholder texts, the progress
bar) are not part of the state.
-/

namespace RagChatbot

/-! ## Data model -/

/-- A chat pane, the value of `activeChat`: `'pdf'` or `'ai'`. -/
inductive Chat where
  | pdf
  | ai
  deriving DecidableEq, Repr

/-- The `role` field of a stored message. -/
inductive Role where
  | user
  | assistant
  | system
  deriving DecidableEq, Repr

/-- A stored message `{ role, text, chunks, time }`.  `chunks = none` stands
for a `chunks` field that is `null` or absent, `time = none` for an absent
`time` field (the system message of an upload has neither). -/
structure Message where
  role : Role
  text : String
  chunks : Option (List String)
  time : Option Nat
  deriving DecidableEq, Repr

/-- The object `chatHistories = { pdf: [...], ai: [...] }`. -/
structure ChatHistories where
  pdf : List Message
  ai : List Message
  deriving DecidableEq, Repr

/-- The array `chatHistories[c]`. -/
def ChatHistories.get (h : ChatHistories) : Chat → List Message
  | .pdf => h.pdf
  | .ai => h.ai

/-- The statement `chatHistories[c].push(m)`. -/
def ChatHistories.push (h : ChatHistories) (c : Chat) (m : Message) : ChatHistories :=
  match c with
  | .pdf => { h with pdf := h.pdf ++ [m] }
  | .ai => { h with ai := h.ai ++ [m] }

/-- A `File` object, as far as the handlers look at it. -/
structure File where
  name : String
  type : String
  deriving DecidableEq, Repr

/-- A request issued with `fetch`. -/
inductive Request where
  | status
  | getSession (clientId : String)
  | upload (file : File)
  | chat (message : String) (docId : Option String) (clientId : Option String)
  | aiChat (message : String) (clientId : Option String)
  deriving DecidableEq, Repr

/-- A child of `chatMessages`, named by the template that built it and the
values put into the template: the bubble of `userMessage text` holds
`escapeHtml(text)`, the bubble of `botMessage text ctx` holds
`formatTextForDisplay(text)`, and `ctx` is the chunk list bound to its
"View Context" button, `none` when the node has no such button.  Both
welcome nodes carry the class `welcome-message`; `typing id` is the typing
indicator with element id `'typing-' + id`. -/
inductive Node where
  | welcomePdf
  | welcomeAi
  | userMessage (text : String)
  | botMessage (text : String) (context : Option (List String))
  | typing (id : Nat)
  deriving DecidableEq, Repr

/-- The status line `uploadStatus` while it is displayed: its text and the
class given to `showUploadStatus`. -/
structure UploadStatus where
  message : String
  type : String
  deriving DecidableEq, Repr

/-- The module-level variables of `app.js` and the page state its handlers read
and write.  `inputEnabled` is `!messageInput.disabled` (always set together
with `sendButton.disabled`), `inputValue` is `messageInput.value`,
`chatMessages` the children of the message list, `localStorage` the entries of
the browser storage, `requests` the requests issued so far, oldest first. -/
structure State where
  currentDocId : Option String
  isProcessing : Bool
  clientId : Option String
  activeChat : Chat
  chatHistories : ChatHistories
  inputEnabled : Bool
  inputValue : String
  chatMessages : List Node
  uploadStatus : Option UploadStatus
  localStorage : List (String × String)
  requests : List Request
  deriving DecidableEq, Repr

/-- The state when the script has been evaluated (lines 2 to 6) and before any
handler ran.  What the page's markup fixes (whether the input starts disabled,
the initial children of the message list) and the content of the storage are
arguments. -/
def State.initial (inputEnabled : Bool) (chatMessages : List Node)
    (localStorage : List (String × String)) : State :=
  { currentDocId := none
    isProcessing := false
    clientId := none
    activeChat := .pdf
    chatHistories := { pdf := [], ai := [] }
    inputEnabled := inputEnabled
    inputValue := ""
    chatMessages := chatMessages
    uploadStatus := none
    localStorage := localStorage
    requests := [] }

/-! ## JavaScript helpers -/

/-- Truthiness of a value that is `null`/`undefined` or a string: only a
non-empty string is truthy. -/
def jsTruthy : Option String → Bool
  | none => false
  | some v => v != ""

/-- White space and line terminators, the characters `String.prototype.trim`
removes. -/
def jsIsWhiteSpace (c : Char) : Bool :=
  let n := c.toNat
  n == 0x09 || n == 0x0A || n == 0x0B || n == 0x0C || n == 0x0D || n == 0x20 ||
  n == 0xA0 || n == 0x1680 || (0x2000 ≤ n && n ≤ 0x200A) || n == 0x2028 ||
  n == 0x2029 || n == 0x202F || n == 0x205F || n == 0x3000 || n == 0xFEFF

/-- The method `String.prototype.trim`. -/
def jsTrim (v : String) : String :=
  ⟨((v.data.dropWhile jsIsWhiteSpace).reverse.dropWhile jsIsWhiteSpace).reverse⟩

/-- The call `localStorage.getItem(key)`. -/
def getItem (st : List (String × String)) (key : String) : Option String :=
  match st with
  | [] => none
  | (k, v) :: rest => if k = key then some v else getItem rest key

/-- The call `localStorage.setItem(key, value)`. -/
def setItem (st : List (String × String)) (key value : String) : List (String × String) :=
  match st with
  | [] => [(key, value)]
  | (k, v) :: rest => if k = key then (k, value) :: rest else (k, v) :: setItem rest key value

/-- The Number value of the integer `n`, as `response.json()` yields it for an
integer written in the body: `n` rounded to 53 significant bits, ties to the
even significand. -/
def roundToDouble (n : Nat) : Nat :=
  let bits := (Nat.toDigits 2 n).length
  if bits ≤ 53 then n
  else
    let shift := bits - 53
    let q := n / 2 ^ shift
    let r := n % 2 ^ shift
    let half := 2 ^ (shift - 1)
    if r > half ∨ (r = half ∧ q % 2 = 1) then (q + 1) * 2 ^ shift else q * 2 ^ shift

/-- The number of decimal digits of `n`. -/
def decimalLength (n : Nat) : Nat := (Nat.toDigits 10 n).length

/-- For `Number::toString`: the integer with at most `k` significant digits,
followed by zeros, whose Number value is `x`, when there is one; of two, the one
closer to `x`, and at equal distance the one whose last significant digit is
even. -/
def shortestCandidate (x k : Nat) : Option Nat :=
  let e := decimalLength x - k
  let lo := x / 10 ^ e
  let v₁ := lo * 10 ^ e
  let v₂ := (lo + 1) * 10 ^ e
  match decide (roundToDouble v₁ = x), decide (roundToDouble v₂ = x) with
  | true, false => some v₁
  | false, true => some v₂
  | true, true =>
    if x - v₁ < v₂ - x then some v₁
    else if v₂ - x < x - v₁ then some v₂
    else if lo % 2 = 0 then some v₁ else some v₂
  | false, false => none

/-- For `Number::toString`: the integer with as few significant digits as
possible whose Number value is `x`; 17 digits always suffice. -/
def shortestDecimal (x : Nat) : Nat :=
  ((List.range 17).findSome? (fun i => shortestCandidate x (i + 1))).getD x

/-- The digits without the zeros at the end. -/
def stripZeros : List Char → List Char
  | [] => []
  | c :: cs =>
    match stripZeros cs with
    | [] => if c = '0' then [] else [c]
    | r => c :: r

/-- The exponent notation of `Number::toString` for the integer `v`: its
significant digits, a point after the first when there are several, and
`e+` with the decimal exponent. -/
def exponentForm (v : Nat) : String :=
  let digits := Nat.toDigits 10 v
  match stripZeros digits with
  | [] => "0"
  | [c] => String.mk [c] ++ "e+" ++ toString (digits.length - 1)
  | c :: cs => String.mk (c :: '.' :: cs) ++ "e+" ++ toString (digits.length - 1)

/-- What a template literal splices for a number whose value in the body is the
integer `n` (`Number::toString`).  An integer below `2 ^ 53` is a Number and is
rendered by its decimal digits.  Otherwise `n` is first rounded to a Number; from
`2 ^ 1024` on that is `Infinity`; else the shortest digits that give the Number
back are rendered, followed by zeros up to 21 digits, and in exponent notation
from `10 ^ 21` on. -/
def jsNumberToString (n : Nat) : String :=
  if n < 2 ^ 53 then toString n
  else
    let x := roundToDouble n
    if 1024 < (Nat.toDigits 2 x).length then "Infinity"
    else
      let v := shortestDecimal x
      if decimalLength v ≤ 21 then toString v else exponentForm v

/-- The text `s` occurs in the text `t`. -/
def Contains (t s : String) : Prop := s.data <:+: t.data

/-! ## Chat input, status line and message list -/

/-- The function `enableChat`. -/
def enableChat (s : State) : State := { s with inputEnabled := true }

/-- The function `disableChat`. -/
def disableChat (s : State) : State := { s with inputEnabled := false }

/-- The function `showUploadStatus`. -/
def showUploadStatus (s : State) (message type : String) : State :=
  { s with uploadStatus := some { message := message, type := type } }

/-- A node of class `welcome-message`. -/
def Node.isWelcome : Node → Bool
  | .welcomePdf => true
  | .welcomeAi => true
  | _ => false

/-- The function `clearWelcomeMessage`: `querySelector` finds the first node of
class `welcome-message`, which is removed. -/
def clearWelcomeMessage (s : State) : State :=
  { s with chatMessages := s.chatMessages.eraseP Node.isWelcome }

/-- The function `showTypingIndicator`, whose element id is built from
`Date.now()`; the id is the second component. -/
def showTypingIndicator (s : State) (now : Nat) : State × Nat :=
  ({ s with chatMessages := s.chatMessages ++ [.typing now] }, now)

/-- The function `removeTypingIndicator`: the first element with the id, when
there is one, is removed. -/
def removeTypingIndicator (s : State) (id : Nat) : State :=
  { s with chatMessages := s.chatMessages.eraseP (fun n => n == .typing id) }

/-- The test `chunks && chunks.length > 0` that guards the "View Context"
button: the chunks bound to the button, `none` when no button is built. -/
def contextButton : Option (List String) → Option (List String)
  | some (c :: cs) => some (c :: cs)
  | _ => none

/-- The function `addUserMessage`; `now` is its `Date.now()`. -/
def addUserMessage (s : State) (text : String) (now : Nat) : State :=
  { s with
    chatHistories := s.chatHistories.push s.activeChat
      { role := .user, text := text, chunks := none, time := some now }
    chatMessages := s.chatMessages ++ [.userMessage text] }

/-- The function `addBotMessage(text, chunks = null, targetChat = null)`; `now`
is its `Date.now()`.  The target is `targetChat || activeChat`; the stored
`chunks` field is `chunks || null`, and an array, empty or not, is truthy.  The
message is drawn only when the target is the visible chat. -/
def addBotMessage (s : State) (text : String) (chunks : Option (List String))
    (targetChat : Option Chat) (now : Nat) : State :=
  let t := targetChat.getD s.activeChat
  let s1 := { s with
    chatHistories := s.chatHistories.push t
      { role := .assistant, text := text, chunks := chunks, time := some now } }
  if t ≠ s.activeChat then s1
  else { s1 with chatMessages := s1.chatMessages ++ [.botMessage text (contextButton chunks)] }

/-- The node `renderChatHistory` builds for one stored message. -/
def renderMessage (m : Message) : Node :=
  match m.role with
  | .user => .userMessage m.text
  | .assistant => .botMessage m.text (contextButton m.chunks)
  | .system => .botMessage m.text (contextButton m.chunks)

/-- The function `renderChatHistory`: the message list is rebuilt from
`chatHistories[activeChat]`; for an empty history a welcome node is shown, and
the input is disabled on the `'pdf'` chat and enabled on the `'ai'` chat. -/
def renderChatHistory (s : State) : State :=
  let history := s.chatHistories.get s.activeChat
  if history.length = 0 then
    match s.activeChat with
    | .pdf => disableChat { s with chatMessages := [.welcomePdf] }
    | .ai => enableChat { s with chatMessages := [.welcomeAi] }
  else { s with chatMessages := history.map renderMessage }

/-! ## Client identity and session -/

/-- The function `initClientId`; `now` is `Date.now()` and `rnd` is
`Math.floor(Math.random()*100000)`, both integers far below `2 ^ 53`, which are
spliced as their decimal digits. -/
def initClientId (s : State) (now rnd : Nat) : State :=
  let stored := getItem s.localStorage "chat_client_id"
  if jsTruthy stored then { s with clientId := stored }
  else
    let fresh := "cli-" ++ toString now ++ "-" ++ toString rnd
    { s with clientId := some fresh
             localStorage := setItem s.localStorage "chat_client_id" fresh }

/-- The answer to `/api/get_session`: a parsed body `{ success, session }`, or
a request (or a body) that throws. -/
inductive SessionOutcome where
  | response (success : Bool) (session : Option ChatHistories)
  | throws
  deriving DecidableEq, Repr

/-- The function `loadSession` up to its `await`: without a client id it returns
at once, otherwise the request is issued.  The second component tells whether
the request is pending. -/
def loadSessionStart (s : State) : State × Bool :=
  match s.clientId with
  | some id =>
    if id != "" then ({ s with requests := s.requests ++ [.getSession id] }, true)
    else (s, false)
  | none => (s, false)

/-- The function `loadSession` from its `await` on. -/
def loadSessionResume (s : State) (o : SessionOutcome) : State :=
  match o with
  | .response true (some session) => renderChatHistory { s with chatHistories := session }
  | _ => renderChatHistory s

/-- The function `checkAPIStatus` up to its `await`; its continuation only
colours the status dot. -/
def checkAPIStatusStart (s : State) : State :=
  { s with requests := s.requests ++ [.status] }

/-- The handler of `DOMContentLoaded`, up to the pending requests. -/
def domContentLoaded (s : State) (now rnd : Nat) : State :=
  (loadSessionStart (initClientId (checkAPIStatusStart s) now rnd)).1

/-! ## Channel switch -/

/-- The values `switchChat` accepts. -/
def Chat.ofString (chat : String) : Option Chat :=
  if chat = "pdf" then some .pdf else if chat = "ai" then some .ai else none

/-- The function `switchChat`. -/
def switchChat (s : State) (chat : String) : State :=
  match Chat.ofString chat with
  | none => s
  | some c =>
    let s1 := renderChatHistory { s with activeChat := c }
    match s1.activeChat with
    | .ai => enableChat s1
    | .pdf => if jsTruthy s1.currentDocId then enableChat s1 else disableChat s1

/-! ## Upload -/

/-- The function `resetUpload`. -/
def resetUpload (s : State) : State :=
  disableChat { s with currentDocId := none, uploadStatus := none }

/-- The parsed body of the answer to `/api/upload`; `doc_id` and `error` are
`none` when the field is `null` or absent, `chunks_count` is the integer written
in the body. -/
structure UploadResponse where
  success : Bool
  doc_id : Option String
  filename : String
  chunks_count : Nat
  message : String
  error : Option String
  deriving DecidableEq, Repr

/-- The answer to `/api/upload`: a parsed body, or a request that throws. -/
inductive UploadOutcome where
  | response (data : UploadResponse)
  | throws
  deriving DecidableEq, Repr

/-- The function `processFile` up to its `await`: a no-op while an upload is
being processed, otherwise the flag is set, the status line hidden and the
request issued. -/
def processFileStart (s : State) (file : File) : State :=
  if s.isProcessing then s
  else { s with isProcessing := true
                uploadStatus := none
                requests := s.requests ++ [.upload file] }

/-- The function `processFile` from its `await` to its end: after an answer the
timer is set and the flag cleared; after a throw the `catch` block runs, then
the flag is cleared. -/
def processFileSettled (s : State) (o : UploadOutcome) : State :=
  match o with
  | .response _ => { s with isProcessing := false }
  | .throws =>
    { resetUpload (showUploadStatus s "Failed to upload file. Please try again." "error") with
      isProcessing := false }

/-- The callback `processFile` gives to `setTimeout`, 500 ms after the answer
`data`; `now` is the `Date.now()` of its `addBotMessage`. -/
def processFileTimeout (s : State) (data : UploadResponse) (now : Nat) : State :=
  if data.success then
    let s1 := { s with currentDocId := data.doc_id }
    let s2 := showUploadStatus s1 data.message "success"
    let s3 := { s2 with
      chatHistories := s2.chatHistories.push .pdf
        { role := .system
          text := "Processed document \"" ++ data.filename ++ "\" (" ++
            jsNumberToString data.chunks_count ++ " chunks)"
          chunks := none
          time := none } }
    let s4 := clearWelcomeMessage (enableChat s3)
    addBotMessage s4
      ("I've processed your document \"" ++ data.filename ++ "\". Created " ++
        jsNumberToString data.chunks_count ++
        " text chunks for analysis. Feel free to ask me any questions about the content!")
      none (some .pdf) now
  else
    resetUpload (showUploadStatus s
      (if jsTruthy data.error then data.error.getD "" else "Upload failed") "error")

/-- The function `handleDrop`, given `e.dataTransfer.files`. -/
def handleDrop (s : State) (files : List File) : State :=
  match files with
  | [] => s
  | file :: _ =>
    if file.type = "application/pdf" then processFileStart s file
    else showUploadStatus s "Please upload a PDF file" "error"

/-- The function `handleFileSelect`, given `e.target.files`. -/
def handleFileSelect (s : State) (files : List File) : State :=
  match files with
  | [] => s
  | file :: _ => processFileStart s file

/-! ## Chat turn -/

/-- The parsed body of the answer to `/api/chat` or `/api/ai_chat`, its fields
typed as the interface gives them: `answer` and `error` are the strings the
handler stores or splices into its message, `relevant_chunks` is `none` when
the field is `null` or absent. -/
structure ChatResponse where
  success : Bool
  answer : String
  relevant_chunks : Option (List String)
  error : String
  deriving DecidableEq, Repr

/-- The answer to a chat request: a parsed body, or a request that throws. -/
inductive ChatOutcome where
  | response (data : ChatResponse)
  | throws
  deriving DecidableEq, Repr

/-- A turn of `handleSubmit` whose request is pending: the branch of
`if (activeChat === 'pdf')` it took and its `typingId`. -/
structure PendingTurn where
  channel : Chat
  typingId : Nat
  deriving DecidableEq, Repr

/-- The function `handleSubmit` up to its `await`.  `tUser`, `tTyping` and
`tBot` are the values of `Date.now()` in `addUserMessage`,
`showTypingIndicator` and `addBotMessage`.  The second component is the pending
turn, `none` when the handler has returned without a request. -/
def handleSubmitStart (s : State) (tUser tTyping tBot : Nat) : State × Option PendingTurn :=
  let message := jsTrim s.inputValue
  if message = "" then (s, none)
  else
    let s1 := { addUserMessage s message tUser with inputValue := "" }
    let (s2, typingId) := showTypingIndicator s1 tTyping
    match s2.activeChat with
    | .pdf =>
      if jsTruthy s2.currentDocId then
        ({ s2 with requests := s2.requests ++ [.chat message s2.currentDocId s2.clientId] },
          some { channel := .pdf, typingId := typingId })
      else
        (addBotMessage (removeTypingIndicator s2 typingId)
          "Please upload a PDF document first." none (some .pdf) tBot, none)
    | .ai =>
      ({ s2 with requests := s2.requests ++ [.aiChat message s2.clientId] },
        some { channel := .ai, typingId := typingId })

/-- The rest of the `try` block of `handleSubmit`, run when the request of the
pending turn `p` settles in state `s`: `.error` when the awaited request
throws, so that control passes to the `catch` block. -/
def handleSubmitTry (s : State) (p : PendingTurn) (o : ChatOutcome) (now : Nat) :
    Except Unit State :=
  match o with
  | .throws => .error ()
  | .response data =>
    let s1 := removeTypingIndicator s p.typingId
    match p.channel with
    | .pdf =>
      if data.success then .ok (addBotMessage s1 data.answer data.relevant_chunks (some .pdf) now)
      else .ok (addBotMessage s1 ("Sorry, I encountered an error: " ++ data.error) none
        (some .pdf) now)
    | .ai =>
      if data.success then .ok (addBotMessage s1 data.answer none (some .ai) now)
      else .ok (addBotMessage s1 ("Sorry, I encountered an error: " ++ data.error) none
        (some .ai) now)

/-- The function `handleSubmit` from its `await` on: the rest of the `try`
block, and the `catch` block when that threw. -/
def handleSubmitResume (s : State) (p : PendingTurn) (o : ChatOutcome) (now : Nat) : State :=
  match handleSubmitTry s p o now with
  | .ok s1 => s1
  | .error _ =>
    addBotMessage (removeTypingIndicator s p.typingId)
      "Sorry, I encountered a network error. Please try again." none (some s.activeChat) now

/-! ## Traces used below -/

/-- A PDF file. -/
def reportPdf : File := { name := "report.pdf", type := "application/pdf" }

/-- A file that is not a PDF. -/
def notesTxt : File := { name := "notes.txt", type := "text/plain" }

/-- A successful answer to `/api/upload`. -/
def uploadOk : UploadResponse :=
  { success := true, doc_id := some "d1", filename := "report.pdf", chunks_count := 12
    message := "Document processed", error := none }

/-- A successful answer to `/api/upload` that carries no `doc_id`. -/
def uploadOkNoId : UploadResponse :=
  { success := true, doc_id := none, filename := "report.pdf", chunks_count := 12
    message := "Document processed", error := none }

/-- A failure answer to `/api/upload`. -/
def uploadFailed : UploadResponse :=
  { success := false, doc_id := none, filename := "", chunks_count := 0
    message := "", error := some "Could not read the file" }

/-- The page after `DOMContentLoaded` on a fresh browser profile, the session
request pending. -/
def pageLoaded : State :=
  domContentLoaded (State.initial false [.welcomePdf] []) 1700000000000 4242

/-- The page once the session request has been answered with no stored
session. -/
def pageReady : State :=
  loadSessionResume pageLoaded (.response false none)

/-- A PDF is dropped and processed while the session request is still pending;
the session answer, an empty session, arrives afterwards. -/
def lateSessionTrace : State :=
  loadSessionResume
    (processFileTimeout
      (processFileSettled (handleDrop pageLoaded [reportPdf]) (.response uploadOk))
      uploadOk 1700000000900)
    (.response true (some { pdf := [], ai := [] }))

/-- A PDF is dropped on the ready page and the server answers with success but
without a `doc_id`. -/
def noIdTrace : State :=
  processFileTimeout
    (processFileSettled (handleDrop pageReady [reportPdf]) (.response uploadOkNoId))
    uploadOkNoId 1700000000900

/-- A PDF is dropped on the ready page, the user switches to the `'ai'` chat
while it is uploaded, and the server then reports a failure. -/
def failedUploadOnAiTrace : State :=
  processFileTimeout
    (processFileSettled (switchChat (handleDrop pageReady [reportPdf]) "ai")
      (.response uploadFailed))
    uploadFailed 1700000000900

/-- The same, the upload request throwing instead. -/
def thrownUploadOnAiTrace : State :=
  processFileSettled (switchChat (handleDrop pageReady [reportPdf]) "ai") .throws

/-- The name `switchChat` is called with for a chat. -/
def Chat.name : Chat → String
  | .pdf => "pdf"
  | .ai => "ai"

/-- The user types `v` into the chat input. -/
def typeMessage (s : State) (v : String) : State := { s with inputValue := v }

/-- The ready page after a successful upload of `reportPdf`. -/
def pageWithDocument : State :=
  processFileTimeout
    (processFileSettled (handleDrop pageReady [reportPdf]) (.response uploadOk))
    uploadOk 1700000000900

/-- On the page with an uploaded document a question is asked and `/api/chat`
answers with success and an empty list of chunks. -/
def emptyChunksTrace : State :=
  handleSubmitResume (handleSubmitStart (typeMessage pageWithDocument "What is it about?") 1 2 3).1
    { channel := .pdf, typingId := 2 }
    (.response
      { success := true, answer := "I cannot tell.", relevant_chunks := some [], error := "" })
    4

/-- A fresh page whose storage holds the empty string under `'chat_client_id'`. -/
def emptyIdStored : State := State.initial false [.welcomePdf] [("chat_client_id", "")]

/-- A fresh page whose storage holds a client id. -/
def idStored : State := State.initial false [.welcomePdf] [("chat_client_id", "cli-1-2")]

/-- The input of the `'pdf'` chat follows `currentDocId`, as `switchChat`
computes it: while the `'pdf'` chat is active the input is enabled exactly when
`currentDocId` is truthy. -/
def DocumentInputInvariant (s : State) : Prop :=
  s.activeChat = .pdf → s.inputEnabled = jsTruthy s.currentDocId

/-- While the `'ai'` chat is active the input is enabled. -/
def AssistantInputInvariant (s : State) : Prop :=
  s.activeChat = .ai → s.inputEnabled = true

/-- On the ready page the user switches to the `'ai'` chat and submits "Hello":
the state after the synchronous part of `handleSubmit`, and the pending turn. -/
def aiTurnDispatched : State × Option PendingTurn :=
  handleSubmitStart (typeMessage (switchChat pageReady "ai") "Hello") 1 2 3

/-- While the request of that turn is pending the user switches back to the
`'pdf'` chat; then the request throws. -/
def thrownAfterSwitchTrace : State :=
  handleSubmitResume (switchChat aiTurnDispatched.1 "pdf") { channel := .ai, typingId := 2 }
    .throws 4

/-- A successful answer to `/api/upload` whose chunk count is `10 ^ 21`. -/
def uploadOkSextillion : UploadResponse :=
  { success := true, doc_id := some "d1", filename := "report.pdf"
    chunks_count := 1000000000000000000000, message := "Document processed", error := none }

/-- A successful answer to `/api/upload` whose chunk count is `2 ^ 60`. -/
def uploadOkTwoPow60 : UploadResponse :=
  { success := true, doc_id := some "d1", filename := "report.pdf"
    chunks_count := 1152921504606846976, message := "Document processed", error := none }

/-- On the loaded page, the session request still pending, the user switches to
the `'ai'` chat and submits "Hello": the state after the synchronous part of
`handleSubmit`, and the pending turn. -/
def lateSessionTurn : State × Option PendingTurn :=
  handleSubmitStart (typeMessage (switchChat pageLoaded "ai") "Hello") 1 2 3

/-- The session request is then answered with an empty session, and after that
`/api/ai_chat` answers the turn. -/
def lateSessionTurnTrace : State :=
  handleSubmitResume
    (loadSessionResume lateSessionTurn.1 (.response true (some { pdf := [], ai := [] })))
    { channel := .ai, typingId := 2 }
    (.response { success := true, answer := "Hi there", relevant_chunks := none, error := "" })
    4

/-- A PDF is dropped on the ready page and the server answers with success and
a chunk count of `10 ^ 21`. -/
def sextillionTrace : State :=
  processFileTimeout
    (processFileSettled (handleDrop pageReady [reportPdf]) (.response uploadOkSextillion))
    uploadOkSextillion 1700000000900

/-- The same with a chunk count of `2 ^ 60`. -/
def twoPow60Trace : State :=
  processFileTimeout
    (processFileSettled (handleDrop pageReady [reportPdf]) (.response uploadOkTwoPow60))
    uploadOkTwoPow60 1700000000900

/-! ## Frame lemmas -/

@[simp] theorem ChatHistories.get_push (h : ChatHistories) (c d : Chat) (m : Message) :
    (h.push c m).get d = if d = c then h.get d ++ [m] else h.get d := by
  cases c <;> cases d <;> simp [ChatHistories.push, ChatHistories.get]

theorem addBotMessage_chatHistories (s : State) (text : String) (chunks : Option (List String))
    (t : Option Chat) (now : Nat) :
    (addBotMessage s text chunks t now).chatHistories =
      s.chatHistories.push (t.getD s.activeChat)
        { role := .assistant, text := text, chunks := chunks, time := some now } := by
  unfold addBotMessage
  dsimp only
  split <;> rfl

theorem addBotMessage_frame (s : State) (text : String) (chunks : Option (List String))
    (t : Option Chat) (now : Nat) :
    (addBotMessage s text chunks t now).currentDocId = s.currentDocId ∧
    (addBotMessage s text chunks t now).activeChat = s.activeChat ∧
    (addBotMessage s text chunks t now).inputEnabled = s.inputEnabled ∧
    (addBotMessage s text chunks t now).requests = s.requests ∧
    (addBotMessage s text chunks t now).isProcessing = s.isProcessing := by
  unfold addBotMessage
  dsimp only
  split <;> simp

/-! ## C1: the input of the document chat -/

/-- C1: the code breaks the claimed invariant.  When the answer to the session
request arrives after an upload has succeeded and carries an empty document
history, `renderChatHistory` disables the input although `currentDocId` is set;
and when a successful upload answer carries no `doc_id`, the input is enabled
although `currentDocId` is null.  In both states the `'pdf'` chat is active. -/
theorem C1_document_input_diverges :
    (lateSessionTrace.activeChat = .pdf ∧ lateSessionTrace.currentDocId = some "d1" ∧
      lateSessionTrace.inputEnabled = false) ∧
    (noIdTrace.activeChat = .pdf ∧ noIdTrace.currentDocId = none ∧
      noIdTrace.inputEnabled = true) := by
  decide

/-! ## C2: files that are not PDFs -/

/-- For a file that is not a PDF, `handleDrop` changes nothing but the status
line. -/
theorem handleDrop_rejects (s : State) (file : File) (rest : List File)
    (h : file.type ≠ "application/pdf") :
    handleDrop s (file :: rest) = showUploadStatus s "Please upload a PDF file" "error" := by
  simp [handleDrop, h]

/-- C2: `handleFileSelect` does not look at the type of the file.  On the ready
page a selected text file sets `isProcessing` and is sent to `/api/upload`,
while the same file dropped is rejected. -/
theorem C2_handleFileSelect_uploads_non_pdf :
    notesTxt.type ≠ "application/pdf" ∧
    pageReady.isProcessing = false ∧
    (handleFileSelect pageReady [notesTxt]).isProcessing = true ∧
    (handleFileSelect pageReady [notesTxt]).requests = pageReady.requests ++ [.upload notesTxt] ∧
    (handleDrop pageReady [notesTxt]).isProcessing = false ∧
    (handleDrop pageReady [notesTxt]).requests = pageReady.requests := by
  decide

/-! ## C7: the input of the assistant chat -/

/-- C7: `resetUpload` disables the input whatever chat is active.  When an
upload started on the `'pdf'` chat fails (by a failure answer or by a throw)
after the user has switched to the `'ai'` chat, the input of the `'ai'` chat is
disabled. -/
theorem C7_assistant_input_disabled_by_failed_upload :
    (failedUploadOnAiTrace.activeChat = .ai ∧ failedUploadOnAiTrace.inputEnabled = false) ∧
    (thrownUploadOnAiTrace.activeChat = .ai ∧ thrownUploadOnAiTrace.inputEnabled = false) ∧
    (∀ s : State, (resetUpload s).inputEnabled = false ∧
      (resetUpload s).activeChat = s.activeChat) := by
  refine ⟨by decide, by decide, fun s => ⟨rfl, rfl⟩⟩

/-! ## Chat turns -/

theorem handleSubmitResume_throws (s : State) (p : PendingTurn) (now : Nat) :
    (handleSubmitResume s p .throws now).chatHistories =
      s.chatHistories.push s.activeChat
        { role := .assistant, text := "Sorry, I encountered a network error. Please try again."
          chunks := none, time := some now } := by
  simp [handleSubmitResume, handleSubmitTry, addBotMessage_chatHistories, removeTypingIndicator]

theorem handleSubmitResume_failure (s : State) (p : PendingTurn) (data : ChatResponse)
    (now : Nat) (h : data.success = false) :
    (handleSubmitResume s p (.response data) now).chatHistories =
      s.chatHistories.push p.channel
        { role := .assistant, text := "Sorry, I encountered an error: " ++ data.error
          chunks := none, time := some now } := by
  cases hp : p.channel <;>
    simp [handleSubmitResume, handleSubmitTry, hp, h, addBotMessage_chatHistories,
      removeTypingIndicator]

theorem handleSubmitResume_success (s : State) (p : PendingTurn) (data : ChatResponse)
    (now : Nat) (h : data.success = true) :
    (handleSubmitResume s p (.response data) now).chatHistories =
      s.chatHistories.push p.channel
        { role := .assistant, text := data.answer
          chunks := match p.channel with
            | .pdf => data.relevant_chunks
            | .ai => none
          time := some now } := by
  cases hp : p.channel <;>
    simp [handleSubmitResume, handleSubmitTry, hp, h, addBotMessage_chatHistories,
      removeTypingIndicator]

/-- Whatever the answer and whatever the state it arrives in, the rest of
`handleSubmit` pushes one assistant message at the end of one history and
leaves the other history as it is. -/
theorem handleSubmitResume_appends (s : State) (p : PendingTurn) (o : ChatOutcome) (now : Nat) :
    ∃ (t : Chat) (a : Message), a.role = .assistant ∧
      (handleSubmitResume s p o now).chatHistories = s.chatHistories.push t a := by
  cases o with
  | throws => exact ⟨_, _, rfl, handleSubmitResume_throws s p now⟩
  | response data =>
    cases hs : data.success
    · exact ⟨_, _, rfl, handleSubmitResume_failure s p data now hs⟩
    · exact ⟨_, _, rfl, handleSubmitResume_success s p data now hs⟩

/-- C3 as stated fails: a turn is submitted on the `'ai'` chat while the session
request is still pending; the session answer then replaces the histories, and
when the answer of the turn arrives its assistant message is alone in the `'ai'`
history: the user message of the turn is in neither history, so it does not
come before the assistant message. -/
theorem C3_user_message_lost_by_late_session :
    lateSessionTurn.2 = some { channel := .ai, typingId := 2 } ∧
    lateSessionTurn.1.chatHistories.ai =
      [{ role := .user, text := "Hello", chunks := none, time := some 1 }] ∧
    lateSessionTurnTrace.chatHistories.ai =
      [{ role := .assistant, text := "Hi there", chunks := none, time := some 4 }] ∧
    lateSessionTurnTrace.chatHistories.pdf = [] ∧
    ¬ (∃ pre post : List Message, lateSessionTurnTrace.chatHistories.ai =
        pre ++ { role := .user, text := "Hello", chunks := none, time := some 1 } :: post) := by
  refine ⟨by decide, by decide, by decide, by decide, ?_⟩
  rintro ⟨pre, post, h⟩
  have hm : ({ role := .user, text := "Hello", chunks := none, time := some 1 } : Message) ∈
      lateSessionTurnTrace.chatHistories.ai := by
    rw [h]
    simp
  revert hm
  decide

/-- C3, amended: a blank input makes `handleSubmit` a no-op (no history changes,
no request, nothing pending).  Otherwise the user message, with the trimmed
text, is pushed once on the history of the active chat.  When the turn ends
without a request, the local assistant message follows it at once.  When a
request is pending, the turn belongs to the active chat, and in whatever state
`s'` the request settles one assistant message is pushed at the end of one
history; when the history of the turn's chat in `s'` still begins with what it
held after the submit (`mid` is what was pushed since), and a throw arrives
while the turn's chat is active, the assistant message is pushed on that
history, after the user message. -/
theorem C3_handleSubmit_user_message (s : State) (tUser tTyping tBot : Nat) :
    (jsTrim s.inputValue = "" → handleSubmitStart s tUser tTyping tBot = (s, none)) ∧
    (jsTrim s.inputValue ≠ "" →
      ((handleSubmitStart s tUser tTyping tBot).2 = none →
        (handleSubmitStart s tUser tTyping tBot).1.requests = s.requests ∧
        (handleSubmitStart s tUser tTyping tBot).1.chatHistories =
          (s.chatHistories.push s.activeChat
            { role := .user, text := jsTrim s.inputValue, chunks := none, time := some tUser }).push
            s.activeChat
            { role := .assistant, text := "Please upload a PDF document first.", chunks := none,
              time := some tBot }) ∧
      (∀ p, (handleSubmitStart s tUser tTyping tBot).2 = some p →
        p.channel = s.activeChat ∧
        (handleSubmitStart s tUser tTyping tBot).1.chatHistories =
          s.chatHistories.push s.activeChat
            { role := .user, text := jsTrim s.inputValue, chunks := none, time := some tUser } ∧
        (∀ (s' : State) (o : ChatOutcome) (now : Nat), ∃ (t : Chat) (a : Message),
          a.role = .assistant ∧
          (handleSubmitResume s' p o now).chatHistories = s'.chatHistories.push t a) ∧
        (∀ (s' : State) (mid : List Message) (o : ChatOutcome) (now : Nat),
          s'.chatHistories.get s.activeChat =
            s.chatHistories.get s.activeChat ++
              { role := .user, text := jsTrim s.inputValue, chunks := none, time := some tUser } ::
                mid →
          (o = .throws → s'.activeChat = s.activeChat) →
          ∃ a : Message, a.role = .assistant ∧
            (handleSubmitResume s' p o now).chatHistories = s'.chatHistories.push s.activeChat a ∧
            (handleSubmitResume s' p o now).chatHistories.get s.activeChat =
              s.chatHistories.get s.activeChat ++
                { role := .user, text := jsTrim s.inputValue, chunks := none,
                  time := some tUser } :: (mid ++ [a])))) := by
  refine ⟨fun h => by simp [handleSubmitStart, h], fun h => ?_⟩
  have resume : ∀ (p : PendingTurn), p.channel = s.activeChat →
      ∀ (s' : State) (mid : List Message) (o : ChatOutcome) (now : Nat),
        s'.chatHistories.get s.activeChat =
          s.chatHistories.get s.activeChat ++
            { role := .user, text := jsTrim s.inputValue, chunks := none, time := some tUser } ::
              mid →
        (o = .throws → s'.activeChat = s.activeChat) →
        ∃ a : Message, a.role = .assistant ∧
          (handleSubmitResume s' p o now).chatHistories = s'.chatHistories.push s.activeChat a ∧
          (handleSubmitResume s' p o now).chatHistories.get s.activeChat =
            s.chatHistories.get s.activeChat ++
              { role := .user, text := jsTrim s.inputValue, chunks := none,
                time := some tUser } :: (mid ++ [a]) := by
    intro p hp s' mid o now hmid hthrow
    have key : ∃ a : Message, a.role = .assistant ∧
        (handleSubmitResume s' p o now).chatHistories = s'.chatHistories.push s.activeChat a := by
      cases o with
      | throws =>
        have e := handleSubmitResume_throws s' p now
        rw [hthrow rfl] at e
        exact ⟨_, rfl, e⟩
      | response data =>
        cases hs : data.success
        · have e := handleSubmitResume_failure s' p data now hs
          rw [hp] at e
          exact ⟨_, rfl, e⟩
        · have e := handleSubmitResume_success s' p data now hs
          rw [hp] at e
          exact ⟨_, rfl, e⟩
    obtain ⟨a, ha, hpush⟩ := key
    refine ⟨a, ha, hpush, ?_⟩
    rw [hpush, ChatHistories.get_push, if_pos rfl, hmid]
    simp
  unfold handleSubmitStart
  simp only [h, if_false, showTypingIndicator, addUserMessage]
  cases hc : s.activeChat
  · by_cases hd : jsTruthy s.currentDocId = true
    · simp only [hd, if_true]
      refine ⟨fun hn => by simp at hn, ?_⟩
      intro p hp
      have hp' : p = { channel := .pdf, typingId := tTyping } := by
        simpa [eq_comm] using hp
      subst hp'
      rw [hc] at resume
      exact ⟨rfl, trivial, fun s' o now => handleSubmitResume_appends s' _ o now,
        fun s' mid o now h₁ h₂ => resume _ rfl s' mid o now h₁ h₂⟩
    · simp [hd, addBotMessage_chatHistories, removeTypingIndicator, addBotMessage_frame]
  · simp only []
    refine ⟨fun hn => by simp at hn, ?_⟩
    intro p hp
    have hp' : p = { channel := .ai, typingId := tTyping } := by
      simpa [eq_comm] using hp
    subst hp'
    rw [hc] at resume
    exact ⟨rfl, trivial, fun s' o now => handleSubmitResume_appends s' _ o now,
      fun s' mid o now h₁ h₂ => resume _ rfl s' mid o now h₁ h₂⟩

/-- C3, amended, at the ready page: a blank input is a no-op; and when "Hello" is
submitted on the `'ai'` chat, the user switches to the `'pdf'` chat and the answer
then arrives, the `'ai'` history is the user message followed by the assistant
message. -/
theorem C3_handleSubmit_user_message_witness :
    handleSubmitStart (typeMessage pageReady "  \n ") 1 2 3 = (typeMessage pageReady "  \n ", none) ∧
    (∃ a : Message, a.role = .assistant ∧
      (handleSubmitResume (switchChat aiTurnDispatched.1 "pdf") { channel := .ai, typingId := 2 }
        (.response { success := true, answer := "Hi there", relevant_chunks := none, error := "" })
        4).chatHistories =
        (switchChat aiTurnDispatched.1 "pdf").chatHistories.push .ai a ∧
      (handleSubmitResume (switchChat aiTurnDispatched.1 "pdf") { channel := .ai, typingId := 2 }
        (.response { success := true, answer := "Hi there", relevant_chunks := none, error := "" })
        4).chatHistories.get .ai =
        [{ role := .user, text := "Hello", chunks := none, time := some 1 }, a]) :=
  ⟨(C3_handleSubmit_user_message (typeMessage pageReady "  \n ") 1 2 3).1 (by decide),
    (((C3_handleSubmit_user_message (typeMessage (switchChat pageReady "ai") "Hello") 1 2 3).2
      (by decide)).2 { channel := .ai, typingId := 2 } (by decide)).2.2.2
      (switchChat aiTurnDispatched.1 "pdf") []
      (.response { success := true, answer := "Hi there", relevant_chunks := none, error := "" })
      4 (by decide) (fun h => by cases h)⟩

theorem Contains.middle (a v b : String) : Contains (a ++ v ++ b) v := by
  refine ⟨a.data, b.data, ?_⟩
  simp [String.data_append]

theorem Contains.last (a v : String) : Contains (a ++ v) v := by
  refine ⟨a.data, [], ?_⟩
  simp [String.data_append]

theorem Contains.append_right {t v : String} (b : String) (h : Contains t v) :
    Contains (t ++ b) v := by
  obtain ⟨x, y, hxy⟩ := h
  refine ⟨x, y ++ b.data, ?_⟩
  simp [String.data_append, ← hxy]

/-- C4: a turn submitted on the `'pdf'` chat with a document id issues one
request to `/api/chat`; when the answer is `{success: false, error: e}`, in
whatever state it arrives, the `try` block ends normally (the `catch` block is
not entered) and the history of the `'pdf'` chat grows by exactly one assistant
message, without chunks, whose text contains `e`; the other history is
unchanged. -/
theorem C4_chat_error_answer (s : State) (tUser tTyping tBot : Nat) (s' : State)
    (e answer : String) (chunks : Option (List String)) (now : Nat)
    (hmsg : jsTrim s.inputValue ≠ "") (hchat : s.activeChat = .pdf)
    (hdoc : jsTruthy s.currentDocId = true) :
    ∃ (p : PendingTurn) (a : Message),
      (handleSubmitStart s tUser tTyping tBot).2 = some p ∧
      (handleSubmitStart s tUser tTyping tBot).1.requests =
        s.requests ++ [.chat (jsTrim s.inputValue) s.currentDocId s.clientId] ∧
      handleSubmitTry s' p
        (.response { success := false, answer := answer, relevant_chunks := chunks, error := e })
        now =
        .ok (handleSubmitResume s' p
          (.response { success := false, answer := answer, relevant_chunks := chunks, error := e })
          now) ∧
      (handleSubmitResume s' p
        (.response { success := false, answer := answer, relevant_chunks := chunks, error := e })
        now).chatHistories = { s'.chatHistories with pdf := s'.chatHistories.pdf ++ [a] } ∧
      a.role = .assistant ∧ Contains a.text e ∧ a.chunks = none := by
  refine ⟨{ channel := .pdf, typingId := tTyping },
    { role := .assistant, text := "Sorry, I encountered an error: " ++ e, chunks := none,
      time := some now }, ?_, ?_, ?_, ?_, rfl, Contains.last _ _, rfl⟩
  · simp [handleSubmitStart, hmsg, hchat, hdoc, showTypingIndicator, addUserMessage]
  · simp [handleSubmitStart, hmsg, hchat, hdoc, showTypingIndicator, addUserMessage]
  · simp [handleSubmitResume, handleSubmitTry]
  · rw [handleSubmitResume_failure _ _ _ _ rfl]
    rfl

/-- C4 on the page with an uploaded document: the answer
`{success: false, error: "timeout"}` to the question "What is it about?". -/
theorem C4_chat_error_answer_witness :
    ∃ (p : PendingTurn) (a : Message),
      (handleSubmitStart (typeMessage pageWithDocument "What is it about?") 1 2 3).2 = some p ∧
      (handleSubmitStart (typeMessage pageWithDocument "What is it about?") 1 2 3).1.requests =
        (typeMessage pageWithDocument "What is it about?").requests ++
          [.chat (jsTrim (typeMessage pageWithDocument "What is it about?").inputValue)
            (typeMessage pageWithDocument "What is it about?").currentDocId
            (typeMessage pageWithDocument "What is it about?").clientId] ∧
      handleSubmitTry (handleSubmitStart (typeMessage pageWithDocument "What is it about?") 1 2 3).1 p
        (.response { success := false, answer := "", relevant_chunks := none, error := "timeout" })
        4 =
        .ok (handleSubmitResume
          (handleSubmitStart (typeMessage pageWithDocument "What is it about?") 1 2 3).1 p
          (.response { success := false, answer := "", relevant_chunks := none, error := "timeout" })
          4) ∧
      (handleSubmitResume
        (handleSubmitStart (typeMessage pageWithDocument "What is it about?") 1 2 3).1 p
        (.response { success := false, answer := "", relevant_chunks := none, error := "timeout" })
        4).chatHistories =
        { (handleSubmitStart (typeMessage pageWithDocument "What is it about?") 1 2 3).1.chatHistories
          with pdf :=
            (handleSubmitStart (typeMessage pageWithDocument "What is it about?") 1 2
              3).1.chatHistories.pdf ++ [a] } ∧
      a.role = .assistant ∧ Contains a.text "timeout" ∧ a.chunks = none :=
  C4_chat_error_answer (typeMessage pageWithDocument "What is it about?") 1 2 3
    (handleSubmitStart (typeMessage pageWithDocument "What is it about?") 1 2 3).1
    "timeout" "" none 4 (by decide) (by decide) (by decide)

/-- C10: a non-blank message submitted on the `'pdf'` chat while `currentDocId`
is null issues no request and leaves nothing pending; the history of the
`'pdf'` chat grows by the user message followed by the assistant message
"Please upload a PDF document first.", and the `'ai'` history and
`currentDocId` are unchanged. -/
theorem C10_submit_without_document (s : State) (tUser tTyping tBot : Nat)
    (hmsg : jsTrim s.inputValue ≠ "") (hchat : s.activeChat = .pdf)
    (hdoc : s.currentDocId = none) :
    (handleSubmitStart s tUser tTyping tBot).2 = none ∧
    (handleSubmitStart s tUser tTyping tBot).1.requests = s.requests ∧
    (handleSubmitStart s tUser tTyping tBot).1.chatHistories.pdf =
      s.chatHistories.pdf ++
        [{ role := .user, text := jsTrim s.inputValue, chunks := none, time := some tUser },
         { role := .assistant, text := "Please upload a PDF document first.", chunks := none,
           time := some tBot }] ∧
    (handleSubmitStart s tUser tTyping tBot).1.chatHistories.ai = s.chatHistories.ai ∧
    (handleSubmitStart s tUser tTyping tBot).1.currentDocId = none := by
  simp [handleSubmitStart, hmsg, hchat, hdoc, showTypingIndicator, addUserMessage, jsTruthy,
    addBotMessage_chatHistories, addBotMessage_frame, removeTypingIndicator,
    ChatHistories.push]

/-- C10 on the ready page, where no document has been uploaded. -/
theorem C10_submit_without_document_witness :
    (handleSubmitStart (typeMessage pageReady "Hello") 1 2 3).2 = none ∧
    (handleSubmitStart (typeMessage pageReady "Hello") 1 2 3).1.requests = pageReady.requests ∧
    (handleSubmitStart (typeMessage pageReady "Hello") 1 2 3).1.chatHistories.pdf =
      [{ role := .user, text := "Hello", chunks := none, time := some 1 },
       { role := .assistant, text := "Please upload a PDF document first.", chunks := none,
         time := some 3 }] ∧
    (handleSubmitStart (typeMessage pageReady "Hello") 1 2 3).1.chatHistories.ai = [] ∧
    (handleSubmitStart (typeMessage pageReady "Hello") 1 2 3).1.currentDocId = none :=
  C10_submit_without_document (typeMessage pageReady "Hello") 1 2 3 (by decide) (by decide)
    (by decide)

/-! ## Upload success -/

theorem jsNumberToString_safe (n : Nat) (h : n < 2 ^ 53) : jsNumberToString n = toString n := by
  unfold jsNumberToString
  rw [if_pos h]

theorem not_contains_of_count {t v : String} (c : Char)
    (h : t.data.count c < v.data.count c) : ¬ Contains t v := by
  intro hc
  exact absurd (hc.sublist.count_le c) (by omega)

set_option maxRecDepth 100000 in
/-- C5 as stated fails: the chunk count is spliced as a JavaScript number.  For
`chunks_count = 10 ^ 21` the text of the system message is
`Processed document "report.pdf" (1e+21 chunks)`, and for
`chunks_count = 2 ^ 60` it holds `1152921504606847000`; neither text contains
the decimal digits of the count. -/
theorem C5_count_not_in_decimal :
    sextillionTrace.chatHistories.pdf =
      [{ role := .system, text := "Processed document \"report.pdf\" (1e+21 chunks)"
         chunks := none, time := none },
       { role := .assistant
         text := "I've processed your document \"report.pdf\". Created 1e+21 text chunks for analysis. Feel free to ask me any questions about the content!"
         chunks := none, time := some 1700000000900 }] ∧
    toString uploadOkSextillion.chunks_count = "1000000000000000000000" ∧
    ¬ Contains "Processed document \"report.pdf\" (1e+21 chunks)" "1000000000000000000000" ∧
    twoPow60Trace.chatHistories.pdf.head? =
      some { role := .system
             text := "Processed document \"report.pdf\" (1152921504606847000 chunks)"
             chunks := none, time := none } ∧
    toString uploadOkTwoPow60.chunks_count = "1152921504606846976" ∧
    ¬ Contains "Processed document \"report.pdf\" (1152921504606847000 chunks)"
      "1152921504606846976" := by
  refine ⟨by decide, by decide, not_contains_of_count '0' (by decide), by decide, by decide,
    not_contains_of_count '6' (by decide)⟩

/-- C5, amended: the success branch of the timer callback of `processFile` sets
`currentDocId` to the `doc_id` of the answer, pushes on the `'pdf'` history a
system message whose text contains the chunk count as JavaScript renders the
number and then an assistant message whose text contains the file name, leaves
the `'ai'` history unchanged and leaves the input enabled; when the count is
below `2 ^ 53` the text of the system message contains its decimal digits. -/
theorem C5_upload_success (s : State) (d : Option String) (f : String) (n : Nat)
    (message : String) (error : Option String) (now : Nat) :
    ∃ m₁ m₂ : Message,
      (processFileTimeout s
        { success := true, doc_id := d, filename := f, chunks_count := n, message := message
          error := error } now).chatHistories =
        { pdf := s.chatHistories.pdf ++ [m₁, m₂], ai := s.chatHistories.ai } ∧
      m₁.role = .system ∧ Contains m₁.text (jsNumberToString n) ∧
      (n < 2 ^ 53 → Contains m₁.text (toString n)) ∧
      m₂.role = .assistant ∧ Contains m₂.text f ∧
      (processFileTimeout s
        { success := true, doc_id := d, filename := f, chunks_count := n, message := message
          error := error } now).currentDocId = d ∧
      (processFileTimeout s
        { success := true, doc_id := d, filename := f, chunks_count := n, message := message
          error := error } now).inputEnabled = true := by
  refine ⟨{ role := .system
            text := "Processed document \"" ++ f ++ "\" (" ++ jsNumberToString n ++ " chunks)"
            chunks := none, time := none },
    { role := .assistant
      text := "I've processed your document \"" ++ f ++ "\". Created " ++ jsNumberToString n ++
        " text chunks for analysis. Feel free to ask me any questions about the content!"
      chunks := none, time := some now }, ?_, rfl, Contains.middle _ _ _, ?_, rfl, ?_, ?_, ?_⟩
  · simp [processFileTimeout, addBotMessage_chatHistories, clearWelcomeMessage, enableChat,
      showUploadStatus, ChatHistories.push]
  · intro h
    rw [← jsNumberToString_safe n h]
    exact Contains.middle _ _ _
  · exact Contains.append_right _ (Contains.append_right _ (Contains.middle _ _ _))
  · simp [processFileTimeout, addBotMessage_frame, clearWelcomeMessage, enableChat,
      showUploadStatus]
  · simp [processFileTimeout, addBotMessage_frame, clearWelcomeMessage, enableChat,
      showUploadStatus]

/-- C5, amended, for the answer `{doc_id: "d1", filename: "report.pdf",
chunks_count: 12}` on the ready page. -/
theorem C5_upload_success_witness :
    ∃ m₁ m₂ : Message,
      (processFileTimeout pageReady
        { success := true, doc_id := some "d1", filename := "report.pdf", chunks_count := 12
          message := "Document processed", error := none } 1700000000900).chatHistories =
        { pdf := pageReady.chatHistories.pdf ++ [m₁, m₂], ai := pageReady.chatHistories.ai } ∧
      m₁.role = .system ∧ Contains m₁.text "12" ∧
      m₂.role = .assistant ∧ Contains m₂.text "report.pdf" ∧
      (processFileTimeout pageReady
        { success := true, doc_id := some "d1", filename := "report.pdf", chunks_count := 12
          message := "Document processed", error := none } 1700000000900).currentDocId =
        some "d1" ∧
      (processFileTimeout pageReady
        { success := true, doc_id := some "d1", filename := "report.pdf", chunks_count := 12
          message := "Document processed", error := none } 1700000000900).inputEnabled = true :=
  let ⟨m₁, m₂, h₁, h₂, _, h₄, h₅, h₆, h₇, h₈⟩ :=
    C5_upload_success pageReady (some "d1") "report.pdf" 12 "Document processed" none
      1700000000900
  ⟨m₁, m₂, h₁, h₂, h₄ (by decide), h₅, h₆, h₇, h₈⟩

/-! ## C9: the client id -/

theorem getItem_setItem (st : List (String × String)) (key value : String) :
    getItem (setItem st key value) key = some value := by
  induction st with
  | nil => simp [setItem, getItem]
  | cons kv rest ih =>
    obtain ⟨k, v⟩ := kv
    by_cases h : k = key
    · simp [setItem, getItem, h]
    · simp [setItem, getItem, h, ih]

theorem freshId_truthy (now rnd : Nat) :
    jsTruthy (some ("cli-" ++ toString now ++ "-" ++ toString rnd)) = true := by
  have h : ("cli-" ++ toString now ++ "-" ++ toString rnd).data ≠ [] := by
    simp [String.data_append]
  have h2 : "cli-" ++ toString now ++ "-" ++ toString rnd ≠ "" := fun hc => h (by rw [hc])
  simp [jsTruthy, h2]

theorem initClientId_stored (s : State) (now rnd : Nat)
    (h : jsTruthy (getItem s.localStorage "chat_client_id") = true) :
    initClientId s now rnd = { s with clientId := getItem s.localStorage "chat_client_id" } := by
  simp [initClientId, h]

/-- C9 as stated fails: with the empty string stored under `'chat_client_id'`
the first run of `initClientId` does not return the stored value but a fresh
id, and writes it to the storage. -/
theorem C9_stored_empty_string_regenerated :
    getItem emptyIdStored.localStorage "chat_client_id" = some "" ∧
    (initClientId emptyIdStored 5 7).clientId = some "cli-5-7" ∧
    (initClientId emptyIdStored 5 7).clientId ≠ some "" ∧
    (initClientId emptyIdStored 5 7).localStorage ≠ emptyIdStored.localStorage := by
  decide

/-- C9, amended: whatever the storage, the timestamps and the random numbers, a
second run of `initClientId` yields the client id of the first run and leaves
the storage as the first run left it; and when a non-empty string is stored
under `'chat_client_id'`, the first run returns it and leaves the storage
unchanged. -/
theorem C9_initClientId_idempotent (s : State) (now₁ rnd₁ now₂ rnd₂ : Nat) :
    (initClientId (initClientId s now₁ rnd₁) now₂ rnd₂).clientId =
      (initClientId s now₁ rnd₁).clientId ∧
    (initClientId (initClientId s now₁ rnd₁) now₂ rnd₂).localStorage =
      (initClientId s now₁ rnd₁).localStorage ∧
    (∀ v, getItem s.localStorage "chat_client_id" = some v → v ≠ "" →
      (initClientId s now₁ rnd₁).clientId = some v ∧
      (initClientId s now₁ rnd₁).localStorage = s.localStorage) := by
  have key : jsTruthy (getItem (initClientId s now₁ rnd₁).localStorage "chat_client_id") = true ∧
      getItem (initClientId s now₁ rnd₁).localStorage "chat_client_id" =
        (initClientId s now₁ rnd₁).clientId := by
    by_cases h : jsTruthy (getItem s.localStorage "chat_client_id") = true
    · simp [initClientId, h]
    · simp [initClientId, h, getItem_setItem, freshId_truthy]
  refine ⟨?_, ?_, ?_⟩
  · rw [initClientId_stored _ _ _ key.1]
    exact key.2
  · rw [initClientId_stored _ _ _ key.1]
  · intro v hv hne
    have h : jsTruthy (getItem s.localStorage "chat_client_id") = true := by
      simp [hv, jsTruthy, hne]
    rw [initClientId_stored _ _ _ h]
    exact ⟨hv, rfl⟩

/-- C9, amended, on a page whose storage holds `"cli-1-2"`. -/
theorem C9_initClientId_idempotent_witness :
    (initClientId idStored 5 7).clientId = some "cli-1-2" ∧
    (initClientId idStored 5 7).localStorage = idStored.localStorage :=
  (C9_initClientId_idempotent idStored 5 7 8 9).2.2 "cli-1-2" (by decide) (by decide)

/-! ## C6: the two chats are kept apart -/

@[simp] theorem Chat.ofString_name (c : Chat) : Chat.ofString c.name = some c := by
  cases c <;> decide

theorem renderChatHistory_frame (s : State) :
    (renderChatHistory s).chatHistories = s.chatHistories ∧
    (renderChatHistory s).activeChat = s.activeChat ∧
    (renderChatHistory s).currentDocId = s.currentDocId ∧
    (renderChatHistory s).requests = s.requests ∧
    (renderChatHistory s).isProcessing = s.isProcessing := by
  unfold renderChatHistory
  dsimp only
  split
  · cases s.activeChat <;> simp [enableChat, disableChat]
  · simp

/-- The message list `renderChatHistory` builds, as a function of the active
chat and its history alone. -/
theorem renderChatHistory_chatMessages (s : State) :
    (renderChatHistory s).chatMessages =
      if (s.chatHistories.get s.activeChat).length = 0 then
        (match s.activeChat with
          | .pdf => [Node.welcomePdf]
          | .ai => [Node.welcomeAi])
      else (s.chatHistories.get s.activeChat).map renderMessage := by
  unfold renderChatHistory
  dsimp only
  split
  · cases s.activeChat <;> simp [enableChat, disableChat]
  · simp

theorem switchChat_frame (s : State) (c : Chat) :
    (switchChat s c.name).chatHistories = s.chatHistories ∧
    (switchChat s c.name).activeChat = c ∧
    (switchChat s c.name).currentDocId = s.currentDocId ∧
    (switchChat s c.name).chatMessages =
      (renderChatHistory { s with activeChat := c }).chatMessages := by
  unfold switchChat
  simp only [Chat.ofString_name]
  have hf := renderChatHistory_frame { s with activeChat := c }
  cases c
  · simp only [hf.2.1]
    split <;> simp [enableChat, disableChat, hf]
  · simp only [hf.2.1]
    simp [enableChat, hf]

/-- C6 as stated fails: the success branch of an upload pushes the system message
on the `'pdf'` history without drawing it, and `renderChatHistory` draws it.  On
the page with an uploaded document the message list holds one node; after
`switchChat('ai')` and `switchChat('pdf')` the history is unchanged and the list
holds two nodes. -/
theorem C6_rendering_changed_by_switches :
    pageWithDocument.activeChat = .pdf ∧
    pageWithDocument.chatMessages =
      [.botMessage "I've processed your document \"report.pdf\". Created 12 text chunks for analysis. Feel free to ask me any questions about the content!" none] ∧
    (switchChat (switchChat pageWithDocument "ai") "pdf").chatHistories =
      pageWithDocument.chatHistories ∧
    (switchChat (switchChat pageWithDocument "ai") "pdf").chatMessages =
      [.botMessage "Processed document \"report.pdf\" (12 chunks)" none,
       .botMessage "I've processed your document \"report.pdf\". Created 12 text chunks for analysis. Feel free to ask me any questions about the content!" none] ∧
    (switchChat (switchChat pageWithDocument "ai") "pdf").chatMessages ≠
      pageWithDocument.chatMessages := by
  decide

/-- C6, amended: for two different chats `a` and `b`, (1) `addUserMessage` while
`a` is active, and `addBotMessage` with target `a`, push their message on the
history of `a`, leave the history of `b` unchanged, and draw one node at the end
of the message list, `addBotMessage` only when `a` is the visible chat; (2) the
message list `renderChatHistory` builds while `b` is active is the welcome node
of `b` for an empty history of `b` and otherwise the nodes of the messages of
that history, in order, so it is the same for any two states that agree on the
history of `b`, and each of its nodes is a welcome node or the node of a message
of that history; (3) after `switchChat(b)` then `switchChat(a)` the chat `a` is
active again, both histories are what they were, and the message list is the one
`renderChatHistory` builds from the history of `a`; it is the list shown before
the switches exactly when that list was the one built from the history. -/
theorem C6_channel_isolation (a b : Chat) (hab : a ≠ b) :
    (∀ m : Message, renderMessage m =
      match m.role with
      | .user => Node.userMessage m.text
      | .assistant => Node.botMessage m.text (contextButton m.chunks)
      | .system => Node.botMessage m.text (contextButton m.chunks)) ∧
    (contextButton none = none ∧ contextButton (some []) = none ∧
      ∀ c cs, contextButton (some (c :: cs)) = some (c :: cs)) ∧
    (∀ (s : State) (text : String) (now : Nat), s.activeChat = a →
      (addUserMessage s text now).chatHistories.get b = s.chatHistories.get b ∧
      (addUserMessage s text now).chatHistories.get a =
        s.chatHistories.get a ++
          [{ role := .user, text := text, chunks := none, time := some now }] ∧
      (addUserMessage s text now).chatMessages = s.chatMessages ++ [.userMessage text]) ∧
    (∀ (s : State) (text : String) (chunks : Option (List String)) (now : Nat),
      (addBotMessage s text chunks (some a) now).chatHistories.get b = s.chatHistories.get b ∧
      (addBotMessage s text chunks (some a) now).chatHistories.get a =
        s.chatHistories.get a ++
          [{ role := .assistant, text := text, chunks := chunks, time := some now }] ∧
      (addBotMessage s text chunks (some a) now).chatMessages =
        if s.activeChat = a then s.chatMessages ++ [.botMessage text (contextButton chunks)]
        else s.chatMessages) ∧
    (∀ s : State, s.activeChat = b →
      (renderChatHistory s).chatMessages =
        if (s.chatHistories.get b).length = 0 then
          (if b = .pdf then [Node.welcomePdf] else [Node.welcomeAi])
        else (s.chatHistories.get b).map renderMessage) ∧
    (∀ s₁ s₂ : State, s₁.activeChat = b → s₂.activeChat = b →
      s₁.chatHistories.get b = s₂.chatHistories.get b →
      (renderChatHistory s₁).chatMessages = (renderChatHistory s₂).chatMessages) ∧
    (∀ s : State, s.activeChat = b →
      ∀ n ∈ (renderChatHistory s).chatMessages,
        n.isWelcome = true ∨ ∃ m ∈ s.chatHistories.get b, n = renderMessage m) ∧
    (∀ s : State, s.activeChat = a →
      (switchChat (switchChat s b.name) a.name).activeChat = a ∧
      (switchChat (switchChat s b.name) a.name).chatHistories = s.chatHistories ∧
      (switchChat (switchChat s b.name) a.name).chatMessages =
        (if (s.chatHistories.get a).length = 0 then
          (if a = .pdf then [Node.welcomePdf] else [Node.welcomeAi])
        else (s.chatHistories.get a).map renderMessage) ∧
      (switchChat (switchChat s b.name) a.name).chatMessages =
        (renderChatHistory s).chatMessages ∧
      ((switchChat (switchChat s b.name) a.name).chatMessages = s.chatMessages ↔
        s.chatMessages = (renderChatHistory s).chatMessages)) := by
  refine ⟨?_, ⟨rfl, rfl, fun c cs => rfl⟩, ?_, ?_, ?_, ?_, ?_, ?_⟩
  · intro m
    unfold renderMessage
    rfl
  · intro s text now ha
    simp [addUserMessage, ha, hab.symm]
  · intro s text chunks now
    refine ⟨by simp [addBotMessage_chatHistories, hab.symm],
      by simp [addBotMessage_chatHistories], ?_⟩
    unfold addBotMessage
    by_cases h : s.activeChat = a
    · simp [h]
    · simp [h, Ne.symm h]
  · intro s hb
    rw [renderChatHistory_chatMessages, hb]
    cases b <;> simp
  · intro s₁ s₂ h₁ h₂ h
    simp [renderChatHistory_chatMessages, h₁, h₂, h]
  · intro s hb n hn
    rw [renderChatHistory_chatMessages, hb] at hn
    split at hn
    · left
      cases b <;> simp at hn <;> simp [hn, Node.isWelcome]
    · right
      simpa [eq_comm] using hn
  · intro s ha
    have h₁ := switchChat_frame s b
    have h₂ := switchChat_frame (switchChat s b.name) a
    have h₃ : (switchChat (switchChat s b.name) a.name).chatMessages =
        (renderChatHistory s).chatMessages := by
      rw [h₂.2.2.2, renderChatHistory_chatMessages, renderChatHistory_chatMessages]
      simp [h₁.1, ha]
    refine ⟨h₂.2.1, by rw [h₂.1, h₁.1], ?_, h₃, ?_⟩
    · rw [h₃, renderChatHistory_chatMessages, ha]
      cases a <;> simp
    · rw [h₃]
      exact eq_comm

/-- C6, amended, for `a = 'pdf'` and `b = 'ai'` on the page with an uploaded
document: after the two switches the message list is the one built from the
`'pdf'` history. -/
theorem C6_channel_isolation_witness :
    (switchChat (switchChat pageWithDocument "ai") "pdf").activeChat = .pdf ∧
    (switchChat (switchChat pageWithDocument "ai") "pdf").chatHistories =
      pageWithDocument.chatHistories ∧
    (switchChat (switchChat pageWithDocument "ai") "pdf").chatMessages =
      (renderChatHistory pageWithDocument).chatMessages :=
  let h := (C6_channel_isolation .pdf .ai (by decide)).2.2.2.2.2.2.2 pageWithDocument (by decide)
  ⟨h.1, h.2.1, h.2.2.2.1⟩

/-! ## C8: the chunks of a stored message -/

/-- C8 as stated fails: when `/api/chat` answers with success and
`relevant_chunks: []`, the assistant message pushed on the `'pdf'` history has a
`chunks` field that is present and empty. -/
theorem C8_empty_chunks_stored :
    (handleSubmitStart (typeMessage pageWithDocument "What is it about?") 1 2 3).2 =
      some { channel := .pdf, typingId := 2 } ∧
    emptyChunksTrace.chatHistories.pdf.getLast? =
      some { role := .assistant, text := "I cannot tell.", chunks := some [], time := some 4 } ∧
    ¬ (∀ m ∈ emptyChunksTrace.chatHistories.pdf, m.chunks = none ∨ ∃ c cs, m.chunks = some (c :: cs)) := by
  refine ⟨by decide, by decide, ?_⟩
  intro h
  have hm := h { role := .assistant, text := "I cannot tell.", chunks := some [], time := some 4 }
    (by decide)
  simp at hm

/-- C8, amended: the message pushed by `addUserMessage` and the two messages
pushed by the success branch of the upload have no chunks; the message pushed
by `addBotMessage` carries the chunks it was given as they are, none when it
was given none; the assistant message of a chat turn has no chunks unless it is
a success answer on the `'pdf'` chat, in which case it carries the
`relevant_chunks` of the answer as they are, the empty list included; and no
"View Context" button is built for an empty list. -/
theorem C8_stored_chunks :
    (∀ (s : State) (text : String) (now : Nat),
      (addUserMessage s text now).chatHistories =
        s.chatHistories.push s.activeChat
          { role := .user, text := text, chunks := none, time := some now }) ∧
    (∀ (s : State) (text : String) (chunks : Option (List String)) (t : Option Chat) (now : Nat),
      (addBotMessage s text chunks t now).chatHistories =
        s.chatHistories.push (t.getD s.activeChat)
          { role := .assistant, text := text, chunks := chunks, time := some now }) ∧
    (∀ (s : State) (d : Option String) (f : String) (n : Nat) (message : String)
      (error : Option String) (now : Nat), ∃ m₁ m₂ : Message,
      (processFileTimeout s
        { success := true, doc_id := d, filename := f, chunks_count := n, message := message
          error := error } now).chatHistories =
        (s.chatHistories.push .pdf m₁).push .pdf m₂ ∧ m₁.chunks = none ∧ m₂.chunks = none) ∧
    (∀ (s : State) (p : PendingTurn) (o : ChatOutcome) (now : Nat), ∃ (t : Chat) (m : Message),
      (handleSubmitResume s p o now).chatHistories = s.chatHistories.push t m ∧
      (m.chunks = none ∨
        ∃ data, o = .response data ∧ data.success = true ∧ p.channel = .pdf ∧
          m.chunks = data.relevant_chunks)) ∧
    contextButton (some []) = none := by
  refine ⟨fun s text now => rfl, addBotMessage_chatHistories, ?_, ?_, rfl⟩
  · intro s d f n message error now
    refine ⟨{ role := .system
              text := "Processed document \"" ++ f ++ "\" (" ++ jsNumberToString n ++ " chunks)"
              chunks := none, time := none },
      { role := .assistant
        text := "I've processed your document \"" ++ f ++ "\". Created " ++ jsNumberToString n ++
          " text chunks for analysis. Feel free to ask me any questions about the content!"
        chunks := none, time := some now }, ?_, rfl, rfl⟩
    simp [processFileTimeout, addBotMessage_chatHistories, clearWelcomeMessage, enableChat,
      showUploadStatus]
  · intro s p o now
    cases o with
    | throws => exact ⟨_, _, handleSubmitResume_throws s p now, Or.inl rfl⟩
    | response data =>
      cases hs : data.success
      · exact ⟨_, _, handleSubmitResume_failure s p data now hs, Or.inl rfl⟩
      · refine ⟨_, _, handleSubmitResume_success s p data now hs, ?_⟩
        cases hp : p.channel
        · exact Or.inr ⟨data, rfl, hs, rfl, rfl⟩
        · exact Or.inl rfl

/-! ## What keeps the input in step with the active chat

The transitions other than the ones of C1 and C7 keep the two input
invariants. -/

theorem removeTypingIndicator_frame (s : State) (id : Nat) :
    (removeTypingIndicator s id).currentDocId = s.currentDocId ∧
    (removeTypingIndicator s id).activeChat = s.activeChat ∧
    (removeTypingIndicator s id).inputEnabled = s.inputEnabled := ⟨rfl, rfl, rfl⟩

theorem handleSubmitStart_frame (s : State) (tUser tTyping tBot : Nat) :
    (handleSubmitStart s tUser tTyping tBot).1.currentDocId = s.currentDocId ∧
    (handleSubmitStart s tUser tTyping tBot).1.activeChat = s.activeChat ∧
    (handleSubmitStart s tUser tTyping tBot).1.inputEnabled = s.inputEnabled := by
  unfold handleSubmitStart
  by_cases h : jsTrim s.inputValue = ""
  · simp [h]
  · simp only [h, if_false, showTypingIndicator, addUserMessage]
    cases hc : s.activeChat
    · by_cases hd : jsTruthy s.currentDocId = true
      · simp [hd, hc]
      · simp [hd, hc, addBotMessage_frame, removeTypingIndicator]
    · simp [hc]

theorem handleSubmitResume_frame (s : State) (p : PendingTurn) (o : ChatOutcome) (now : Nat) :
    (handleSubmitResume s p o now).currentDocId = s.currentDocId ∧
    (handleSubmitResume s p o now).activeChat = s.activeChat ∧
    (handleSubmitResume s p o now).inputEnabled = s.inputEnabled := by
  cases o with
  | throws => simp [handleSubmitResume, handleSubmitTry, addBotMessage_frame, removeTypingIndicator]
  | response data =>
    cases hp : p.channel <;> cases hs : data.success <;>
      simp [handleSubmitResume, handleSubmitTry, hp, hs, addBotMessage_frame,
        removeTypingIndicator]

theorem processFileStart_frame (s : State) (file : File) :
    (processFileStart s file).currentDocId = s.currentDocId ∧
    (processFileStart s file).activeChat = s.activeChat ∧
    (processFileStart s file).inputEnabled = s.inputEnabled := by
  unfold processFileStart
  split <;> simp

theorem switchChat_documentInput (s : State) (chat : String)
    (h : DocumentInputInvariant s) : DocumentInputInvariant (switchChat s chat) := by
  unfold switchChat
  cases hc : Chat.ofString chat with
  | none => simpa using h
  | some c =>
    have hf := renderChatHistory_frame { s with activeChat := c }
    intro hpdf
    cases c
    · simp only [hf.2.1] at hpdf ⊢
      by_cases hd : jsTruthy s.currentDocId = true
      · simp [hf.2.2.1, hd, enableChat]
      · simp [hf.2.2.1, hd, disableChat]
    · simp [hf.2.1, enableChat] at hpdf

/-- Every handler keeps `DocumentInputInvariant`, given that a success answer to
an upload carries a truthy `doc_id` and that the session answer does not arrive
while a document id is set. -/
theorem documentInput_preserved (s : State) (h : DocumentInputInvariant s) :
    (∀ chat, DocumentInputInvariant (switchChat s chat)) ∧
    DocumentInputInvariant (resetUpload s) ∧
    (∀ files, DocumentInputInvariant (handleDrop s files)) ∧
    (∀ files, DocumentInputInvariant (handleFileSelect s files)) ∧
    (∀ o, DocumentInputInvariant (processFileSettled s o)) ∧
    (∀ data now, (data.success = true → jsTruthy data.doc_id = true) →
      DocumentInputInvariant (processFileTimeout s data now)) ∧
    (∀ v, DocumentInputInvariant (typeMessage s v)) ∧
    (∀ tUser tTyping tBot, DocumentInputInvariant (handleSubmitStart s tUser tTyping tBot).1) ∧
    (∀ p o now, DocumentInputInvariant (handleSubmitResume s p o now)) ∧
    (∀ o, jsTruthy s.currentDocId = false → DocumentInputInvariant (loadSessionResume s o)) := by
  refine ⟨fun chat => switchChat_documentInput s chat h, ?_, ?_, ?_, ?_, ?_, ?_, ?_, ?_, ?_⟩
  · intro _
    simp [resetUpload, disableChat, jsTruthy]
  · intro files
    cases files with
    | nil => exact h
    | cons file rest =>
      by_cases ht : file.type = "application/pdf"
      · intro hp
        have hf := processFileStart_frame s file
        simp only [handleDrop, ht, if_true] at hp ⊢
        rw [hf.2.2, hf.1]
        exact h (hf.2.1 ▸ hp)
      · simpa [handleDrop, ht, showUploadStatus, DocumentInputInvariant] using h
  · intro files
    cases files with
    | nil => exact h
    | cons file rest =>
      intro hp
      have hf := processFileStart_frame s file
      show (processFileStart s file).inputEnabled = jsTruthy (processFileStart s file).currentDocId
      rw [hf.2.2, hf.1]
      exact h (hf.2.1 ▸ hp)
  · intro o
    cases o with
    | response data => exact h
    | throws => intro _; simp [processFileSettled, resetUpload, disableChat, jsTruthy]
  · intro data now hd
    unfold processFileTimeout
    split
    · rename_i hs
      intro _
      simp [addBotMessage_frame, clearWelcomeMessage, enableChat, showUploadStatus, hd hs]
    · intro _
      simp [resetUpload, disableChat, jsTruthy]
  · intro v
    exact h
  · intro tUser tTyping tBot hp
    have hf := handleSubmitStart_frame s tUser tTyping tBot
    rw [hf.2.2, hf.1]
    exact h (hf.2.1 ▸ hp)
  · intro p o now hp
    have hf := handleSubmitResume_frame s p o now
    rw [hf.2.2, hf.1]
    exact h (hf.2.1 ▸ hp)
  · intro o hd hp
    have key : ∀ s₀ : State, jsTruthy s₀.currentDocId = false → s₀.activeChat = .pdf →
        s₀.inputEnabled = jsTruthy s₀.currentDocId →
        (renderChatHistory s₀).inputEnabled = jsTruthy (renderChatHistory s₀).currentDocId := by
      intro s₀ hd₀ hp₀ h₀
      unfold renderChatHistory
      dsimp only
      split
      · simp [hp₀, disableChat, hd₀]
      · exact h₀
    cases o with
    | throws =>
      have hf := renderChatHistory_frame s
      exact key s hd (hf.2.1 ▸ hp) (h (hf.2.1 ▸ hp))
    | response success session =>
      cases success <;> cases session
      · have hf := renderChatHistory_frame s
        exact key s hd (hf.2.1 ▸ hp) (h (hf.2.1 ▸ hp))
      · have hf := renderChatHistory_frame s
        exact key s hd (hf.2.1 ▸ hp) (h (hf.2.1 ▸ hp))
      · have hf := renderChatHistory_frame s
        exact key s hd (hf.2.1 ▸ hp) (h (hf.2.1 ▸ hp))
      · rename_i session
        have hf := renderChatHistory_frame { s with chatHistories := session }
        exact key { s with chatHistories := session } hd (hf.2.1 ▸ hp) (h (hf.2.1 ▸ hp))

theorem renderChatHistory_assistantInput (s : State) (h : AssistantInputInvariant s) :
    AssistantInputInvariant (renderChatHistory s) := by
  intro ha
  have hf := renderChatHistory_frame s
  rw [hf.2.1] at ha
  unfold renderChatHistory
  dsimp only
  split
  · simp [ha, enableChat]
  · exact h ha

/-- Every handler that does not run `resetUpload` keeps
`AssistantInputInvariant`. -/
theorem assistantInput_preserved (s : State) (h : AssistantInputInvariant s) :
    (∀ chat, AssistantInputInvariant (switchChat s chat)) ∧
    (∀ files, AssistantInputInvariant (handleDrop s files)) ∧
    (∀ files, AssistantInputInvariant (handleFileSelect s files)) ∧
    (∀ data, AssistantInputInvariant (processFileSettled s (.response data))) ∧
    (∀ data now, data.success = true → AssistantInputInvariant (processFileTimeout s data now)) ∧
    (∀ v, AssistantInputInvariant (typeMessage s v)) ∧
    (∀ tUser tTyping tBot, AssistantInputInvariant (handleSubmitStart s tUser tTyping tBot).1) ∧
    (∀ p o now, AssistantInputInvariant (handleSubmitResume s p o now)) ∧
    (∀ o, AssistantInputInvariant (loadSessionResume s o)) := by
  refine ⟨?_, ?_, ?_, ?_, ?_, ?_, ?_, ?_, ?_⟩
  · intro chat
    unfold switchChat
    cases hc : Chat.ofString chat with
    | none => simpa using h
    | some c =>
      have hf := renderChatHistory_frame { s with activeChat := c }
      intro ha
      cases c
      · simp only [hf.2.1] at ha
        split at ha <;> simp [enableChat, disableChat, hf.2.1] at ha
      · simp [hf.2.1, enableChat]
  · intro files
    cases files with
    | nil => exact h
    | cons file rest =>
      by_cases ht : file.type = "application/pdf"
      · intro ha
        have hf := processFileStart_frame s file
        simp only [handleDrop, ht, if_true] at ha ⊢
        rw [hf.2.2]
        exact h (hf.2.1 ▸ ha)
      · simpa [handleDrop, ht, showUploadStatus, AssistantInputInvariant] using h
  · intro files
    cases files with
    | nil => exact h
    | cons file rest =>
      intro ha
      have hf := processFileStart_frame s file
      show (processFileStart s file).inputEnabled = true
      rw [hf.2.2]
      exact h (hf.2.1 ▸ ha)
  · intro data
    exact h
  · intro data now hs _
    simp [processFileTimeout, hs, addBotMessage_frame, clearWelcomeMessage, enableChat,
      showUploadStatus]
  · intro v
    exact h
  · intro tUser tTyping tBot ha
    have hf := handleSubmitStart_frame s tUser tTyping tBot
    rw [hf.2.2]
    exact h (hf.2.1 ▸ ha)
  · intro p o now ha
    have hf := handleSubmitResume_frame s p o now
    rw [hf.2.2]
    exact h (hf.2.1 ▸ ha)
  · intro o
    cases o with
    | throws => exact renderChatHistory_assistantInput s h
    | response success session =>
      cases success <;> cases session
      · exact renderChatHistory_assistantInput s h
      · exact renderChatHistory_assistantInput s h
      · exact renderChatHistory_assistantInput s h
      · exact renderChatHistory_assistantInput _ h

/-! ## C11: the chat a turn's assistant message is stored in -/

/-- C11: the `catch` block of `handleSubmit` passes the chat that is active when
the request throws, not the chat the turn was submitted on.  A turn submitted on
the `'ai'` chat whose request throws after the user has switched to the `'pdf'`
chat leaves the `'ai'` history with the user message alone and pushes the
network-error message on the `'pdf'` history.  An answer, with success or with
an error, is pushed on the chat of the turn in whatever state it arrives. -/
theorem C11_network_error_stored_in_active_chat :
    aiTurnDispatched.2 = some { channel := .ai, typingId := 2 } ∧
    aiTurnDispatched.1.activeChat = .ai ∧
    (switchChat aiTurnDispatched.1 "pdf").activeChat = .pdf ∧
    thrownAfterSwitchTrace.chatHistories.ai =
      [{ role := .user, text := "Hello", chunks := none, time := some 1 }] ∧
    thrownAfterSwitchTrace.chatHistories.pdf =
      [{ role := .assistant, text := "Sorry, I encountered a network error. Please try again."
         chunks := none, time := some 4 }] ∧
    (∀ (s : State) (p : PendingTurn) (data : ChatResponse) (now : Nat), ∃ m : Message,
      m.role = .assistant ∧
      (handleSubmitResume s p (.response data) now).chatHistories =
        s.chatHistories.push p.channel m) := by
  refine ⟨by decide, by decide, by decide, by decide, by decide, ?_⟩
  intro s p data now
  cases hs : data.success
  · exact ⟨_, rfl, handleSubmitResume_failure s p data now hs⟩
  · exact ⟨_, rfl, handleSubmitResume_success s p data now hs⟩

end RagChatbot
